import Mathlib

/-!
# Verification of the Market Forge / Printful integration layer

This file gives a shallow embedding, in Lean 4, of the Printful
print-on-demand integration of the Market Forge repository:

* the original API client (`PrintfulOrig`, from the first version of the
  integration module) and the fixed API client (`PrintfulFixed`), each with
  its `getHeaders` / `printfulRequest` wrapper and the operations the claims
  refer to;
* the `/api/printful` route handlers (`PrintfulRoute.GET` / `PrintfulRoute.POST`);
* the `PrintfulBrowser` React component's render function (`Browser.render`);
* the marketplace download handler's path validation and file serving slice
  (`Download.downloadServe`), together with a model of Node's posix
  `path.normalize` on character lists.

JavaScript dynamic values (parsed JSON) are modelled by `JVal`; JS
truthiness, `||` defaulting, string conversion and member access are
modelled explicitly.  Provider responses are modelled as an HTTP status
plus the body parsed as a JSON object (`HttpResponse`).  Network effects
are modelled by passing the provider's response in as data and returning
the list of issued requests as a trace.
-/

/-- A JavaScript value obtained from parsing JSON: null, booleans, numbers
(taken in ℚ), strings, arrays and objects.  `undefined` is modelled as
`Option.none` wherever a value may be missing (e.g. absent object fields). -/
inductive JVal where
  | null
  | bool (b : Bool)
  | num (q : ℚ)
  | str (s : String)
  | arr (elems : List JVal)
  | obj (fields : List (String × JVal))

/-- JS number-to-string conversion, at the precision the claims need:
integral rationals print as plain decimal integers. -/
def numToString (q : ℚ) : String :=
  if q.den = 1 then toString q.num else toString q

mutual

/-- JS `String(v)` conversion: `null` prints "null", booleans print their
name, strings pass through, plain objects print "[object Object]" and
arrays join their elements with commas (null elements print empty). -/
def jsToString : JVal → String
  | .null => ("null")
  | .bool b => cond b ("true") ("false")
  | .num q => numToString q
  | .str s => s
  | .obj _ => ("[object Object]")
  | .arr xs => jsArrToString xs

/-- Array-to-string helper for `jsToString`: comma-joined elements, with
`null` elements contributing the empty string (JS `Array.prototype.toString`). -/
def jsArrToString : List JVal → String
  | [] => ""
  | [JVal.null] => ""
  | [v] => jsToString v
  | JVal.null :: vs => (",") ++ jsArrToString vs
  | v :: vs => jsToString v ++ (",") ++ jsArrToString vs

end

/-- JS truthiness of a value: `null`, `false`, `0` and `""` are falsy,
everything else (including every array and object) is truthy. -/
def jsTruthy : JVal → Bool
  | .null => false
  | .bool b => b
  | .num q => if q = 0 then false else true
  | .str s => if s = "" then false else true
  | .arr _ => true
  | .obj _ => true

/-- JS truthiness of a possibly-`undefined` value (`undefined` is falsy). -/
def jsTruthyOpt : Option JVal → Bool
  | none => false
  | some v => jsTruthy v

/-- JS `a || b`: the left value when truthy, otherwise the right value. -/
def jsOr (a b : Option JVal) : Option JVal :=
  if jsTruthyOpt a then a else b

/-- Field lookup in a parsed JSON object (`undefined`, i.e. `none`, when the
field is absent). -/
def lookupField (fs : List (String × JVal)) (k : String) : Option JVal :=
  fs.lookup k

/-- JS template-literal rendering of a possibly-`undefined` value
(an absent value renders as "undefined"). -/
def templateOf : Option JVal → String
  | none => ("undefined")
  | some v => jsToString v

/-- The string conversion the `Error` constructor applies to its message
argument (an `undefined` argument yields an empty message). -/
def errMessageString (v : Option JVal) : String :=
  match v with
  | none => ""
  | some w => jsToString w

/-- A provider HTTP response: the status code and the body parsed as a JSON
object (`none` when the body does not parse as a JSON object). -/
structure HttpResponse where
  status : Nat
  body : Option (List (String × JVal))

/-- `Response.ok` in the Fetch API: status in the range 200–299. -/
def respOk (r : HttpResponse) : Bool :=
  decide (200 ≤ r.status) && decide (r.status < 300)

/-- How a request wrapper can fail: a thrown `Error` with a message, a
rejected `response.json()` (body not a JSON object), or a JS `TypeError`
from accessing a member of `null`/`undefined`. -/
inductive ReqError where
  | thrown (msg : String)
  | jsonReject
  | typeError
deriving DecidableEq

/-- A request actually issued to the provider: full URL, method, headers
(later entries override earlier ones, as with JS object spread) and JSON body. -/
structure IssuedRequest where
  url : String
  method : String
  headers : List (String × String)
  body : Option JVal

/-- The per-call options of `printfulRequest` (`RequestInit`): method,
extra headers, JSON body. -/
structure RequestOptions where
  method : String
  headers : List (String × String)
  body : Option JVal

/-- Options for a plain GET call (the default `RequestInit`). -/
def getOpts : RequestOptions := ⟨("GET"), [], none⟩

/-- Effective header value under JS object-spread merging: the value of the
last entry with the given name. -/
def lookupLast (hs : List (String × String)) (k : String) : Option String :=
  hs.reverse.lookup k

/-- Base URL of the provider API, common to both client versions. -/
def PRINTFUL_API_URL : String := "https://api.printful.com"

namespace PrintfulOrig

/-- Original `getHeaders`: fails when the API key is unset (or empty, which
is falsy in JS), otherwise produces the Authorization and Content-Type
headers. -/
def getHeaders : Option String → Except String (List (String × String))
  | none => .error ("PRINTFUL_API_KEY not configured")
  | some k =>
    if k = "" then .error ("PRINTFUL_API_KEY not configured")
    else .ok [(("Authorization"), ("Bearer ") ++ k), (("Content-Type"), ("application/json"))]

/-- Envelope handling of the original `printfulRequest`: on an HTTP-ok
response, parse the body and return `data.result`; otherwise parse the
body (defaulting to `{}` on parse failure) and throw
`error.result || "Printful API error: <status>"`. -/
def unwrapEnvelope (r : HttpResponse) : Except ReqError (Option JVal) :=
  if respOk r then
    match r.body with
    | none => .error .jsonReject
    | some fs => .ok (lookupField fs ("result"))
  else
    let fs := r.body.getD []
    .error (.thrown (errMessageString
      (jsOr (lookupField fs ("result"))
        (some (.str (("Printful API error: ") ++ toString r.status))))))

/-- The original `printfulRequest`: evaluates `getHeaders` (throwing before
any request is issued when the key is missing), then issues the request and
unwraps the envelope with `unwrapEnvelope`. -/
def printfulRequest (key : Option String) (endpoint : String)
    (opts : RequestOptions) (resp : HttpResponse) :
    Except ReqError (Option JVal) × List IssuedRequest :=
  match getHeaders key with
  | .error m => (.error (.thrown m), [])
  | .ok hs =>
    (unwrapEnvelope resp,
     [⟨PRINTFUL_API_URL ++ endpoint, opts.method, hs ++ opts.headers, opts.body⟩])

end PrintfulOrig

namespace PrintfulFixed

/-- Default store id used when the `PRINTFUL_STORE_ID` environment value is
unset or empty (JS `||` defaulting). -/
def storeIdOf : Option String → String
  | none => "16513682"
  | some s => if s = "" then "16513682" else s

/-- Fixed `getHeaders`: as the original, but additionally sends the
`X-PF-Store-Id` header. -/
def getHeaders (key : Option String) (storeEnv : Option String) :
    Except String (List (String × String)) :=
  match key with
  | none => .error ("PRINTFUL_API_KEY not configured")
  | some k =>
    if k = "" then .error ("PRINTFUL_API_KEY not configured")
    else .ok [(("Authorization"), ("Bearer ") ++ k),
              (("Content-Type"), ("application/json")),
              (("X-PF-Store-Id"), storeIdOf storeEnv)]

/-- Does `data.code !== 200` fail, i.e. is the `code` field strictly equal
to the number 200? -/
def isCode200 : Option JVal → Bool
  | some (.num q) => if q = 200 then true else false
  | _ => false

/-- The optional chain `data.error?.message`: `undefined` when `error` is
missing or `null`, and the `message` field when `error` is an object. -/
def errMessageOf (fs : List (String × JVal)) : Option JVal :=
  match lookupField fs ("error") with
  | some (.obj efs) => lookupField efs ("message")
  | _ => none

/-- Envelope handling of the fixed `printfulRequest`: always parse the body,
succeed with `data.result` exactly when `data.code` is 200, and otherwise
throw `data.error?.message || data.result || "Printful API error: <code>"`. -/
def unwrapEnvelope (r : HttpResponse) : Except ReqError (Option JVal) :=
  match r.body with
  | none => .error .jsonReject
  | some fs =>
    if isCode200 (lookupField fs ("code")) then .ok (lookupField fs ("result"))
    else
      .error (.thrown (errMessageString
        (jsOr (errMessageOf fs)
          (jsOr (lookupField fs ("result"))
            (some (.str (("Printful API error: ") ++ templateOf (lookupField fs ("code")))))))))

/-- The fixed `printfulRequest`: evaluates `getHeaders` (with the store id),
issues the request, and unwraps the envelope with `unwrapEnvelope`. -/
def printfulRequest (key : Option String) (storeEnv : Option String)
    (endpoint : String) (opts : RequestOptions) (resp : HttpResponse) :
    Except ReqError (Option JVal) × List IssuedRequest :=
  match getHeaders key storeEnv with
  | .error m => (.error (.thrown m), [])
  | .ok hs =>
    (unwrapEnvelope resp,
     [⟨PRINTFUL_API_URL ++ endpoint, opts.method, hs ++ opts.headers, opts.body⟩])

end PrintfulFixed

/-- The keys of the `POPULAR_PRODUCTS` template record (identical in both
client versions). -/
inductive ProductType where
  | tShirt
  | hoodie
  | mug
  | poster
  | phoneCase
  | toteBag
  | sticker
  | canvas
deriving DecidableEq

/-- The `POPULAR_PRODUCTS` record: catalog product id for each template key
(identical values in both client versions). -/
def POPULAR_PRODUCTS : ProductType → Nat
  | .tShirt => 71
  | .hoodie => 380
  | .mug => 19
  | .poster => 1
  | .phoneCase => 195
  | .toteBag => 84
  | .sticker => 358
  | .canvas => 2

/-- `Object.values(POPULAR_PRODUCTS)` in key-insertion order. -/
def popularProductIds : List Nat :=
  [ProductType.tShirt, .hoodie, .mug, .poster, .phoneCase, .toteBag, .sticker,
   .canvas].map POPULAR_PRODUCTS

namespace PrintfulOrig

/-- A `PrintfulFile`: a placement type and a file URL. -/
structure PFile where
  type : String
  url : String
deriving DecidableEq

/-- A catalog variant as typed by the original client (`PrintfulVariant`). -/
structure OrigVariant where
  id : Nat
  name : String
  size : String
  color : String
  price : ℚ
  availability : String
deriving DecidableEq

/-- A catalog product as typed by the original client (`PrintfulProduct`). -/
structure OrigProduct where
  id : Nat
  name : String
  type : String
  variants : List OrigVariant
  image : String
deriving DecidableEq

/-- A sync-variant entry of a `createSyncProduct` request. -/
structure SyncVariantReq where
  variant_id : Nat
  retail_price : ℚ
  files : List PFile
deriving DecidableEq

/-- The parameters of `createSyncProduct`. -/
structure CreateSyncParams where
  name : String
  thumbnail : String
  variants : List SyncVariantReq
deriving DecidableEq

/-- The provider's reply to `createSyncProduct`. -/
structure SyncProductRes where
  id : Nat
  external_id : String
deriving DecidableEq

/-- The parameters of `createMockup`. -/
structure MockupParams where
  productId : Nat
  variantIds : List Nat
  files : List PFile
deriving DecidableEq

/-- One generated mockup in the provider's reply. -/
structure Mockup where
  placement : String
  mockup_url : String
deriving DecidableEq

/-- The provider's reply to `createMockup` as consumed by
`quickCreateProduct` (a list of mockups). -/
structure MockupRes where
  mockups : List Mockup
deriving DecidableEq

/-- The provider calls `quickCreateProduct` can make, recorded in order. -/
inductive QuickCall where
  | getProduct (productId : Nat)
  | createSyncProduct (p : CreateSyncParams)
  | createMockup (p : MockupParams)
deriving DecidableEq

/-- The provider, abstracted: the typed outcome of each call
`quickCreateProduct` delegates to. -/
structure QuickEnv where
  getProduct : Nat → Except String OrigProduct
  createSyncProduct : CreateSyncParams → Except String SyncProductRes
  createMockup : MockupParams → Except String MockupRes

/-- The parameters of `quickCreateProduct`. -/
structure QuickParams where
  name : String
  designUrl : String
  productType : ProductType
  retailMarkup : Option ℚ

/-- The value `quickCreateProduct` resolves with. -/
structure QuickResult where
  productId : Nat
  mockupUrls : List String
deriving DecidableEq

/-- JS `a || b` on an optional number: the default applies when the value
is absent or zero (zero is falsy). -/
def jsNumOr (a : Option ℚ) (b : ℚ) : ℚ :=
  match a with
  | none => b
  | some x => if x = 0 then b else x

/-- `quickCreateProduct`: looks up the product id for the template key,
fetches the product, keeps the first 5 variants, creates a sync product
pricing each kept variant at `price * (retailMarkup || 2)` with the design
as its single default file, requests mockups for the same variant ids and
design file, and resolves with the sync product id and the mockup URLs.
The second component records the provider calls in order. -/
def quickCreateProduct (env : QuickEnv) (params : QuickParams) :
    Except String QuickResult × List QuickCall :=
  let productId := POPULAR_PRODUCTS params.productType
  let markup := jsNumOr params.retailMarkup 2
  match env.getProduct productId with
  | .error e => (.error e, [.getProduct productId])
  | .ok product =>
    let baseVariants := product.variants.take 5
    let syncParams : CreateSyncParams :=
      ⟨params.name, params.designUrl,
       baseVariants.map (fun v =>
         ⟨v.id, v.price * markup, [⟨("default"), params.designUrl⟩]⟩)⟩
    match env.createSyncProduct syncParams with
    | .error e => (.error e, [.getProduct productId, .createSyncProduct syncParams])
    | .ok syncProduct =>
      let mockupParams : MockupParams :=
        ⟨productId, baseVariants.map (fun v => v.id),
         [⟨("default"), params.designUrl⟩]⟩
      match env.createMockup mockupParams with
      | .error e =>
        (.error e,
         [.getProduct productId, .createSyncProduct syncParams, .createMockup mockupParams])
      | .ok task =>
        (.ok ⟨syncProduct.id, task.mockups.map (fun m => m.mockup_url)⟩,
         [.getProduct productId, .createSyncProduct syncParams, .createMockup mockupParams])

/-- The original `createMockup`: a POST to
`/mockup-generator/create-task/<productId>` carrying the variant ids and
files, returning the envelope's `result` verbatim. -/
def createMockupCall (key : Option String) (productId : Nat)
    (variantIds : List Nat) (files : List PFile) (resp : HttpResponse) :
    Except ReqError (Option JVal) × List IssuedRequest :=
  printfulRequest key (("/mockup-generator/create-task/") ++ toString productId)
    ⟨("POST"),
     [],
     some (.obj
       [(("variant_ids"), .arr (variantIds.map (fun i => .num i))),
        (("files"), .arr (files.map (fun f =>
          .obj [(("type"), .str f.type), (("url"), .str f.url)])))])⟩
    resp

end PrintfulOrig

namespace PrintfulFixed

/-- Fixed `getProduct`: a GET of `/products/<productId>` returning the
envelope's `result` verbatim. -/
def getProduct (key storeEnv : Option String) (productId : Nat)
    (resp : HttpResponse) : Except ReqError (Option JVal) × List IssuedRequest :=
  printfulRequest key storeEnv (("/products/") ++ toString productId) getOpts resp

/-- A `files` entry of `createMockupTask`: a placement and an image URL. -/
structure MockupFileSpec where
  placement : String
  image_url : String
deriving DecidableEq

/-- The JSON sent for one mockup file spec. -/
def MockupFileSpec.toJVal (f : MockupFileSpec) : JVal :=
  .obj [(("placement"), .str f.placement), (("image_url"), .str f.image_url)]

/-- Fixed `createMockupTask`: a POST to
`/mockup-generator/create-task/<productId>` carrying the variant ids and
files, returning the envelope's `result` (the task record) verbatim. -/
def createMockupTask (key storeEnv : Option String) (productId : Nat)
    (variantIds : List Nat) (files : List MockupFileSpec) (resp : HttpResponse) :
    Except ReqError (Option JVal) × List IssuedRequest :=
  printfulRequest key storeEnv
    (("/mockup-generator/create-task/") ++ toString productId)
    ⟨("POST"),
     [],
     some (.obj
       [(("variant_ids"), .arr (variantIds.map (fun i => .num i))),
        (("files"), .arr (files.map MockupFileSpec.toJVal))])⟩
    resp

/-- Fixed `getMockupResult`: a GET of
`/mockup-generator/task?task_key=<taskKey>` returning the envelope's
`result` (the polled task state) verbatim. -/
def getMockupResult (key storeEnv : Option String) (taskKey : String)
    (resp : HttpResponse) : Except ReqError (Option JVal) × List IssuedRequest :=
  printfulRequest key storeEnv (("/mockup-generator/task?task_key=") ++ taskKey)
    getOpts resp

/-- JS indexing `v[0]`: the first array element (undefined for an empty
array), the "0" property of an object, undefined on other non-null
primitives, and a `TypeError` on `null`/`undefined`. -/
def jsIndexZero : Option JVal → Except ReqError (Option JVal)
  | some (.arr []) => .ok none
  | some (.arr (x :: _)) => .ok (some x)
  | some (.obj fs) => .ok (lookupField fs ("0"))
  | some (.str s) => .ok (if s = "" then none else some (.str (s.take 1)))
  | some (.num _) => .ok none
  | some (.bool _) => .ok none
  | some .null => .error .typeError
  | none => .error .typeError

/-- Fixed `getStoreInfo`: a GET of `/stores` followed by taking element 0 of
the returned store list. -/
def getStoreInfo (key storeEnv : Option String) (resp : HttpResponse) :
    Except ReqError (Option JVal) × List IssuedRequest :=
  let r := printfulRequest key storeEnv ("/stores") getOpts resp
  (match r.1 with
   | .error e => .error e
   | .ok stores => jsIndexZero stores, r.2)

/-- Is a settled `getProduct` promise value the JS `null` produced by the
`.catch(() => null)` handler (which the `p !== null` filter removes)? -/
def isJNull : Option JVal → Bool
  | some .null => true
  | _ => false

/-- Fixed `getPopularProducts`: queries the first 5 popular product ids (the
per-id response coming from `oracle`), converts each rejected `getProduct`
into `null`, and keeps exactly the non-null settled values.  The second
component is the concatenated request trace. -/
def getPopularProducts (key storeEnv : Option String)
    (oracle : Nat → HttpResponse) : List (Option JVal) × List IssuedRequest :=
  let ids := popularProductIds.take 5
  let calls := ids.map (fun i => getProduct key storeEnv i (oracle i))
  let settled := calls.map (fun c =>
    match c.1 with
    | .error _ => some JVal.null
    | .ok v => v)
  (settled.filter (fun e => !(isJNull e)), calls.flatMap (fun c => c.2))

end PrintfulFixed

namespace PrintfulRoute

/-- Digits-to-number accumulator for `parseIntJS`. -/
def natOfDigits (ds : List Char) : Nat :=
  ds.foldl (fun a c => a * 10 + (c.toNat - ('0').toNat)) 0

/-- JS `parseInt(s)` (radix 10): skip leading whitespace, read an optional
sign and then the leading digits; `none` models `NaN` (no digits). -/
def parseIntJS (s : String) : Option Int :=
  let cs := s.data.dropWhile Char.isWhitespace
  let signedTail : Bool × List Char :=
    match cs with
    | '-' :: r => (true, r)
    | '+' :: r => (false, r)
    | r => (false, r)
  let ds := signedTail.2.takeWhile Char.isDigit
  if ds = [] then none
  else some ((if signedTail.1 then -1 else 1) * (natOfDigits ds : Int))

/-- JS `a || b` for a nullable string query parameter: the default applies
when the parameter is missing or empty. -/
def jsOrStr (a : Option String) (b : String) : String :=
  match a with
  | none => b
  | some s => if s = "" then b else s

/-- Is a nullable string query parameter falsy (missing or empty)? -/
def strFalsy (a : Option String) : Bool :=
  match a with
  | none => true
  | some s => if s = "" then true else false

/-- The printful client as seen by the route handlers: each imported
function's outcome (a resolved value, or a thrown error's message). -/
structure RouteClient where
  getCatalog : Option Int → Except String (List JVal)
  getProduct : Option Int → Except String JVal
  getPopularProducts : Unit → Except String (List JVal)
  getProductPricing : Option Int → Except String JVal
  getStoreInfo : Unit → Except String JVal
  getMockupResult : String → Except String JVal
  getShippingRates : Option JVal → Option JVal → Except String (List JVal)
  estimateCosts : Option JVal → Option JVal → Except String JVal
  createMockupTask : Option JVal → Option JVal → Option JVal → Except String JVal

/-- A route response: HTTP status plus JSON body. -/
structure RouteResponse where
  status : Nat
  body : JVal

/-- The route's `errorResponse` helper: `{success: false, error: message}`
with the given status (500 at every call site that omits it). -/
def errorResponse (message : String) (status : Nat) : RouteResponse :=
  ⟨status, .obj [(("success"), .bool false), (("error"), .str message)]⟩

/-- The info payload returned for a missing or unrecognized GET action. -/
def infoPayload : JVal :=
  .obj
    [(("success"), .bool true),
     (("api"), .str ("Printful POD Integration")),
     (("version"), .str ("2.0")),
     (("actions"),
      .obj [(("GET"),
             .arr [.str ("info"), .str ("catalog"), .str ("product"),
                   .str ("popular"), .str ("pricing"), .str ("store"),
                   .str ("mockup-status")]),
            (("POST"),
             .arr [.str ("shipping"), .str ("estimate"), .str ("mockup")])]),
     (("popularProducts"),
      .obj [(("tShirt"), .num 71), (("hoodie"), .num 380), (("mug"), .num 19),
            (("poster"), .num 1), (("phoneCase"), .num 195),
            (("toteBag"), .num 84), (("sticker"), .num 358),
            (("canvas"), .num 2)]),
     (("documentation"), .str ("https://developers.printful.com/docs/"))]

/-- The GET handler of `/api/printful`: dispatches on the `action` query
parameter (defaulting to `info`), wraps each client result as
`{success: true, ...}`, returns 400 for missing required parameters, and
rewraps any client error as `errorResponse` with status 500. -/
def GET (query : List (String × String)) (client : RouteClient) : RouteResponse :=
  let action := jsOrStr (query.lookup ("action")) ("info")
  if action = ("catalog") then
    let limit := parseIntJS (jsOrStr (query.lookup ("limit")) ("20"))
    match client.getCatalog limit with
    | .ok catalog =>
      ⟨200, .obj [(("success"), .bool true), (("products"), .arr catalog),
                  (("count"), .num catalog.length)]⟩
    | .error m => errorResponse m 500
  else if action = ("product") then
    if strFalsy (query.lookup ("id")) then errorResponse ("Product ID required") 400
    else
      match client.getProduct (parseIntJS ((query.lookup ("id")).getD "")) with
      | .ok product => ⟨200, .obj [(("success"), .bool true), (("product"), product)]⟩
      | .error m => errorResponse m 500
  else if action = ("popular") then
    match client.getPopularProducts () with
    | .ok products =>
      ⟨200, .obj [(("success"), .bool true), (("products"), .arr products),
                  (("count"), .num products.length)]⟩
    | .error m => errorResponse m 500
  else if action = ("pricing") then
    if strFalsy (query.lookup ("id")) then errorResponse ("Product ID required") 400
    else
      match client.getProductPricing (parseIntJS ((query.lookup ("id")).getD "")) with
      | .ok pricing => ⟨200, .obj [(("success"), .bool true), (("pricing"), pricing)]⟩
      | .error m => errorResponse m 500
  else if action = ("store") then
    match client.getStoreInfo () with
    | .ok store => ⟨200, .obj [(("success"), .bool true), (("store"), store)]⟩
    | .error m => errorResponse m 500
  else if action = ("mockup-status") then
    if strFalsy (query.lookup ("task_key")) then errorResponse ("Task key required") 400
    else
      match client.getMockupResult ((query.lookup ("task_key")).getD "") with
      | .ok result => ⟨200, .obj [(("success"), .bool true), (("result"), result)]⟩
      | .error m => errorResponse m 500
  else
    ⟨200, infoPayload⟩

/-- Field access on the parsed POST body (any non-object body yields
`undefined` fields). -/
def bodyField (body : JVal) (k : String) : Option JVal :=
  match body with
  | .obj fs => lookupField fs k
  | _ => none

/-- The POST handler of `/api/printful`: requires an `action` query
parameter (400 when missing), validates the required body fields by JS
truthiness (400 when absent), wraps each client result as
`{success: true, ...}`, rejects unknown actions with 400, and rewraps any
client error as `errorResponse` with status 500. -/
def POST (query : List (String × String)) (body : JVal) (client : RouteClient) :
    RouteResponse :=
  match query.lookup ("action") with
  | none => errorResponse ("Action parameter required. Use: shipping, estimate, mockup") 400
  | some a =>
    if a = "" then
      errorResponse ("Action parameter required. Use: shipping, estimate, mockup") 400
    else if a = ("shipping") then
      let recipient := bodyField body ("recipient")
      let items := bodyField body ("items")
      if jsTruthyOpt recipient && jsTruthyOpt items then
        match client.getShippingRates recipient items with
        | .ok rates =>
          ⟨200, .obj [(("success"), .bool true), (("rates"), .arr rates),
                      (("count"), .num rates.length)]⟩
        | .error m => errorResponse m 500
      else errorResponse ("recipient and items are required") 400
    else if a = ("estimate") then
      let recipient := bodyField body ("recipient")
      let items := bodyField body ("items")
      if jsTruthyOpt recipient && jsTruthyOpt items then
        match client.estimateCosts recipient items with
        | .ok estimate => ⟨200, .obj [(("success"), .bool true), (("estimate"), estimate)]⟩
        | .error m => errorResponse m 500
      else errorResponse ("recipient and items are required") 400
    else if a = ("mockup") then
      let productId := bodyField body ("productId")
      let variantIds := bodyField body ("variantIds")
      let files := bodyField body ("files")
      if jsTruthyOpt productId && jsTruthyOpt variantIds && jsTruthyOpt files then
        match client.createMockupTask productId variantIds files with
        | .ok task => ⟨200, .obj [(("success"), .bool true), (("task"), task)]⟩
        | .error m => errorResponse m 500
      else errorResponse ("productId, variantIds, and files are required") 400
    else
      errorResponse (("Unknown action: ") ++ a ++ (". Use: shipping, estimate, mockup")) 400

end PrintfulRoute

namespace Browser

/-- A catalog product as typed inside `PrintfulBrowser`. -/
structure Product where
  id : Nat
  title : String
  type_name : String
  brand : String
  image : String
  variant_count : Nat

/-- A variant as typed inside `PrintfulBrowser`. -/
structure Variant where
  id : Nat
  name : String
  size : String
  color : String
  color_code : String
  price : String
  in_stock : Bool

/-- A product with its variants (`ProductDetail`). -/
structure ProductDetail where
  product : Product
  variants : List Variant

/-- A shipping rate row as typed inside `PrintfulBrowser`. -/
structure ShippingRate where
  id : String
  name : String
  rate : String
  minDeliveryDays : Nat
  maxDeliveryDays : Nat

/-- The `view` state variable of `PrintfulBrowser`. -/
inductive ViewName where
  | catalog
  | product
  | estimate
deriving DecidableEq

/-- The local state of `PrintfulBrowser`: its seven `useState` variables. -/
structure BrowserState where
  products : List Product
  selectedProduct : Option ProductDetail
  selectedVariant : Option Variant
  shippingRates : List ShippingRate
  loading : Bool
  error : Option String
  view : ViewName

/-- What the component's render body returns: the loading spinner, the
error box, one of the three views, or `null`. -/
inductive RenderedView where
  | loadingView
  | errorView (msg : String)
  | catalogView
  | productView
  | estimateView
  | nullView
deriving DecidableEq

/-- JS truthiness of the `error` state (`null` and the empty string are
falsy). -/
def errTruthy (e : Option String) : Bool :=
  match e with
  | none => false
  | some s => if s = "" then false else true

/-- The render body of `PrintfulBrowser`: loading first, then the error
box, then the catalog view, the product view only with a selected product,
the estimate view only with both a selected product and a selected variant,
and `null` otherwise. -/
def render (s : BrowserState) : RenderedView :=
  if s.loading then .loadingView
  else if errTruthy s.error then .errorView ((s.error).getD "")
  else
    match s.view with
    | .catalog => .catalogView
    | .product =>
      match s.selectedProduct with
      | some _ => .productView
      | none => .nullView
    | .estimate =>
      match s.selectedProduct, s.selectedVariant with
      | some _, some _ => .estimateView
      | _, _ => .nullView

/-- Which of the three data views a render output shows (at most one). -/
def viewsShown : RenderedView → List ViewName
  | .catalogView => [.catalog]
  | .productView => [.product]
  | .estimateView => [.estimate]
  | _ => []

end Browser

namespace Download

/-- Does a character list contain two adjacent dots (JS
`normalizedPath.includes('..')`)? -/
def hasDD : List Char → Bool
  | a :: b :: rest => (a = '.' && b = '.') || hasDD (b :: rest)
  | _ => false

/-- Substring test `s.includes('..')` on a string. -/
def containsDD (s : String) : Bool := hasDD s.data

/-- Split a character list at every '/' (JS `split('/')` segments,
preserving empty segments). -/
def splitSlash : List Char → List (List Char)
  | [] => [[]]
  | c :: cs =>
    let r := splitSlash cs
    if c = '/' then [] :: r
    else
      match r with
      | [] => [[c]]
      | s :: rest => (c :: s) :: rest

/-- Does a character list denote an absolute posix path (leading '/')? -/
def isAbsChars : List Char → Bool
  | [] => false
  | c :: _ => c = '/'

/-- `path.isAbsolute` (posix) on a string. -/
def isAbsolutePosix (s : String) : Bool := isAbsChars s.data

/-- One step of posix normalization over a reversed segment stack: skip
empty and `.` segments, let `..` pop a pushed segment (absorbed at the root
of an absolute path, kept leading for a relative one), push anything else. -/
def normStep (isAbs : Bool) (stack : List (List Char)) (seg : List Char) :
    List (List Char) :=
  if seg = [] ∨ seg = ['.'] then stack
  else if seg = ['.', '.'] then
    match stack with
    | [] => if isAbs then [] else [['.', '.']]
    | t :: rest => if t = ['.', '.'] then seg :: stack else rest
  else seg :: stack

/-- The canonical segments of a path: its slash-split segments folded
through `normStep`. -/
def normSegsChars (cs : List Char) : List (List Char) :=
  ((splitSlash cs).foldl (normStep (isAbsChars cs)) []).reverse

/-- The canonical segments of a path given as a string. -/
def normSegsOf (s : String) : List (List Char) := normSegsChars s.data

/-- Join segments with '/' separators. -/
def joinSegs : List (List Char) → List Char
  | [] => []
  | [s] => s
  | s :: rest => s ++ '/' :: joinSegs rest

/-- Does a character list end with '/'? -/
def endsSlash (cs : List Char) : Bool :=
  match cs.getLast? with
  | some '/' => true
  | _ => false

/-- Node's posix `path.normalize` on character lists: canonical segments
joined back together, with the root restored for absolute paths, `.` for an
empty relative result, and a single trailing slash preserved. -/
def normalizeChars (cs : List Char) : List Char :=
  let isAbs := isAbsChars cs
  let core := joinSegs (normSegsChars cs)
  let core2 := if isAbs then '/' :: core else core
  let base := if core2 = [] then ['.'] else core2
  if endsSlash cs && !(base = ['/'] : Bool) && !(endsSlash base) then base ++ ['/']
  else base

/-- `path.normalize` (posix) on strings. -/
def normalizeStr (s : String) : String := ⟨normalizeChars s.data⟩

/-- `path.join(a, b, c)` for a nonempty first component: slash-concatenate
and normalize. -/
def joinTriple (a b c : String) : String :=
  ⟨normalizeChars (a.data ++ '/' :: b.data ++ '/' :: c.data)⟩

/-- A file on disk, as far as the handler observes it: its `stat` size and
its contents. -/
structure FsFile where
  size : Nat
  contents : String

/-- A filesystem operation performed by the handler. -/
inductive FsOp where
  | statOp (p : String)
  | readOp (p : String)
deriving DecidableEq

/-- The path an operation touches. -/
def FsOp.path : FsOp → String
  | .statOp p => p
  | .readOp p => p

/-- The handler's outcome on the modelled slice. -/
inductive ServeOutcome where
  | invalidPath (status : Nat)
  | tooLarge (status : Nat)
  | fileMissing (status : Nat)
  | served (status : Nat) (contents : String)

/-- The 50 MiB size limit (`MAX_FILE_SIZE = 50 * 1024 * 1024`). -/
def MAX_FILE_SIZE : Nat := 50 * 1024 * 1024

/-- The path-validation and file-serving slice of the marketplace download
handler (entered with the product's stored `file_path`, after the
not-found and access checks): normalize the stored path, reject it with
400 — before any filesystem access — when the normalized path contains
`..` or is absolute, resolve it under `<cwd>/storage`, `stat` it (404 when
that fails), reject files over 50 MiB with 413 without reading them, and
otherwise read and serve the contents.  The filesystem is abstracted by
`fs` (`none` meaning `stat` fails); the second component records the
filesystem operations in order. -/
def downloadServe (cwd : String) (file_path : String)
    (fs : String → Option FsFile) : ServeOutcome × List FsOp :=
  let normalizedPath := normalizeStr file_path
  if containsDD normalizedPath || isAbsolutePosix normalizedPath then
    (.invalidPath 400, [])
  else
    let fileAbsPath := joinTriple cwd ("storage") normalizedPath
    match fs fileAbsPath with
    | none => (.fileMissing 404, [.statOp fileAbsPath])
    | some f =>
      if f.size > MAX_FILE_SIZE then (.tooLarge 413, [.statOp fileAbsPath])
      else (.served 200 f.contents, [.statOp fileAbsPath, .readOp fileAbsPath])

end Download

/-- `a || b` when the left side is `undefined`. -/
theorem jsOr_none (x : Option JVal) : jsOr none x = x := rfl

section ClaimC1

/-- `toString` on a natural number cast to ℤ is the plain decimal. -/
theorem toString_intCast_nat (n : Nat) : toString ((n : ℤ)) = toString n := rfl

/-- Rendering the `code` field as a template literal yields the decimal
status when the field holds the status as a number. -/
theorem templateOf_num_natCast (n : Nat) :
    templateOf (some (.num (n : ℚ))) = toString n := by
  show numToString (n : ℚ) = toString n
  rw [numToString, if_pos (Rat.den_natCast n), Rat.num_natCast]
  exact toString_intCast_nat n

/-- Claim C1 (counterexample): the two historical versions of the request
wrapper are not equivalent.  On the provider response with HTTP status 200
and envelope `{"result": "R"}` (no `code` field), the original wrapper
succeeds with the `result` field while the fixed wrapper throws an error
carrying "R". -/
theorem printfulRequest_versions_not_equivalent :
    PrintfulOrig.unwrapEnvelope ⟨200, some [(("result"), .str ("R"))]⟩ =
      .ok (some (.str ("R")))
    ∧ PrintfulFixed.unwrapEnvelope ⟨200, some [(("result"), .str ("R"))]⟩ =
      .error (.thrown ("R")) := by
  constructor
  · rfl
  · rfl

/-- Claim C1 (amended): restricted to envelopes that parse as a JSON
object whose `code` field mirrors the HTTP status, that carry no
`error.message`, and whose only HTTP-ok status is 200, the two versions of
the request wrapper agree exactly: same success, same returned `result`,
same thrown message. -/
theorem printfulRequest_versions_equivalent (r : HttpResponse)
    (fs : List (String × JVal))
    (hb : r.body = some fs)
    (hcode : lookupField fs ("code") = some (.num (r.status : ℚ)))
    (herr : PrintfulFixed.errMessageOf fs = none)
    (hok : respOk r = true → r.status = 200) :
    PrintfulOrig.unwrapEnvelope r = PrintfulFixed.unwrapEnvelope r := by
  rcases hr : respOk r with _ | _
  · have hne : r.status ≠ 200 := by
      intro h
      rw [respOk, h] at hr
      simp at hr
    have hcast : ¬ ((r.status : ℚ) = 200) := fun h => hne (by exact_mod_cast h)
    simp only [PrintfulOrig.unwrapEnvelope, PrintfulFixed.unwrapEnvelope, hr, hb, hcode,
      herr, PrintfulFixed.isCode200, Option.getD_some, Bool.false_eq_true, if_false,
      jsOr_none]
    rw [if_neg hcast]
    simp only [Bool.false_eq_true, if_false]
    rw [templateOf_num_natCast]
  · have hs : r.status = 200 := hok hr
    have hcast : ((r.status : ℚ) = 200) := by
      rw [hs]
      norm_num
    simp only [PrintfulOrig.unwrapEnvelope, PrintfulFixed.unwrapEnvelope, hr, hb, hcode,
      PrintfulFixed.isCode200, if_true]
    rw [if_pos hcast]
    simp

/-- Witness for the amended claim C1 at a concrete failing envelope
(HTTP 404, `{"code": 404, "result": "oops"}`). -/
theorem printfulRequest_versions_equivalent_witness :
    PrintfulOrig.unwrapEnvelope ⟨404, some [(("code"), .num 404), (("result"), .str ("oops"))]⟩ =
      PrintfulFixed.unwrapEnvelope ⟨404, some [(("code"), .num 404), (("result"), .str ("oops"))]⟩ := by
  apply printfulRequest_versions_equivalent _ [(("code"), .num 404), (("result"), .str ("oops"))]
  · rfl
  · show some (JVal.num 404) = some (.num ((404 : ℕ) : ℚ))
    norm_num
  · rfl
  · intro h
    simp [respOk] at h

end ClaimC1

section ClaimC2

/-- Claim C2 (counterexample): `quickCreateProduct` does not always price
sync variants at `price * retailMarkup` when a markup is supplied.  With a
supplied `retailMarkup` of 0 (falsy in JS) and a single variant priced 10,
the issued sync-product request carries `retail_price` 20 (= 10 * default 2),
not 10 * 0 = 0. -/
theorem quickCreateProduct_markup_counterexample :
    (PrintfulOrig.quickCreateProduct
        ⟨fun _ => .ok ⟨71, ("Tee"), ("t"), [⟨101, ("V"), ("M"), ("Black"), 10, ("ok")⟩], ("")⟩,
         fun _ => .ok ⟨99, ("")⟩,
         fun _ => .ok ⟨[]⟩⟩
        ⟨("N"), ("d"), .tShirt, some 0⟩).2 =
      [.getProduct 71,
       .createSyncProduct ⟨("N"), ("d"), [⟨101, 20, [⟨("default"), ("d")⟩]⟩]⟩,
       .createMockup ⟨71, [101], [⟨("default"), ("d")⟩]⟩]
    ∧ (20 : ℚ) ≠ 10 * 0 := by
  constructor
  · simp only [PrintfulOrig.quickCreateProduct, PrintfulOrig.jsNumOr, POPULAR_PRODUCTS]
    norm_num
  · norm_num

/-- Claim C2 (amended): for every `POPULAR_PRODUCTS` key and every supplied
`retailMarkup` other than 0, `quickCreateProduct` chains its calls in
order — fetch the mapped product, take its first 5 variants, create a sync
product whose i-th sync variant carries that variant's id and a
`retail_price` of the variant's price times the markup (`retailMarkup` when
supplied, otherwise 2) with the design as its single default file, then
request mockups for those same variant ids with the single file
`{type: default, url: designUrl}` — and returns the created sync product's
id with the mockup URLs of the mockup response. -/
theorem quickCreateProduct_chain (env : PrintfulOrig.QuickEnv)
    (params : PrintfulOrig.QuickParams) (product : PrintfulOrig.OrigProduct)
    (sync : PrintfulOrig.SyncProductRes) (task : PrintfulOrig.MockupRes)
    (syncReq : PrintfulOrig.CreateSyncParams) (mockReq : PrintfulOrig.MockupParams)
    (hm : params.retailMarkup ≠ some 0)
    (hsr : syncReq =
      ⟨params.name, params.designUrl,
       (product.variants.take 5).map (fun v =>
         ⟨v.id, v.price * ((params.retailMarkup).getD 2), [⟨("default"), params.designUrl⟩]⟩)⟩)
    (hmr : mockReq =
      ⟨POPULAR_PRODUCTS params.productType,
       (product.variants.take 5).map (fun v => v.id), [⟨("default"), params.designUrl⟩]⟩)
    (hp : env.getProduct (POPULAR_PRODUCTS params.productType) = .ok product)
    (hs : env.createSyncProduct syncReq = .ok sync)
    (hmk : env.createMockup mockReq = .ok task) :
    PrintfulOrig.quickCreateProduct env params =
      (.ok ⟨sync.id, task.mockups.map (fun m => m.mockup_url)⟩,
       [.getProduct (POPULAR_PRODUCTS params.productType),
        .createSyncProduct syncReq, .createMockup mockReq]) := by
  have hmark : PrintfulOrig.jsNumOr params.retailMarkup 2 = (params.retailMarkup).getD 2 := by
    rcases hx : params.retailMarkup with _ | x
    · rfl
    · have hx0 : x ≠ 0 := by
        intro h
        exact hm (by rw [hx, h])
      simp [PrintfulOrig.jsNumOr, hx0]
  subst hsr
  subst hmr
  simp only [PrintfulOrig.quickCreateProduct, hmark, hp, hs, hmk]

/-- Witness for the amended claim C2: a concrete run with markup 3 and a
one-variant product, checked end to end. -/
theorem quickCreateProduct_chain_witness :
    PrintfulOrig.quickCreateProduct
        ⟨fun _ => .ok ⟨71, ("Tee"), ("t"), [⟨101, ("V"), ("M"), ("Black"), 10, ("ok")⟩], ("")⟩,
         fun _ => .ok ⟨99, ("x")⟩,
         fun _ => .ok ⟨[⟨("front"), ("u1")⟩]⟩⟩
        ⟨("N"), ("d"), .tShirt, some 3⟩ =
      (.ok ⟨99, [("u1")]⟩,
       [.getProduct 71,
        .createSyncProduct ⟨("N"), ("d"), [⟨101, 10 * 3, [⟨("default"), ("d")⟩]⟩]⟩,
        .createMockup ⟨71, [101], [⟨("default"), ("d")⟩]⟩]) := by
  refine quickCreateProduct_chain _ ⟨("N"), ("d"), .tShirt, some 3⟩
    ⟨71, ("Tee"), ("t"), [⟨101, ("V"), ("M"), ("Black"), 10, ("ok")⟩], ("")⟩
    ⟨99, ("x")⟩ ⟨[⟨("front"), ("u1")⟩]⟩ _ _ ?_ rfl rfl rfl rfl rfl
  simp

end ClaimC2

section ClaimC3

/-- Looking a key up past entries that do not bind it. -/
theorem lookup_append_of_not_mem {β : Type} (xs ys : List (String × β)) (k : String)
    (h : ∀ p ∈ xs, p.1 ≠ k) : (xs ++ ys).lookup k = ys.lookup k := by
  induction xs with
  | nil => rfl
  | cons p xs ih =>
    have hp : ¬ (k == p.1) = true := by
      simp only [beq_iff_eq]
      intro e
      exact h p (by simp) e.symm
    simp only [List.cons_append, List.lookup, hp]
    exact ih (fun q hq => h q (by simp [hq]))

/-- Claim C3: in both client versions, every provider API operation fails
with 'PRINTFUL_API_KEY not configured' and issues no network request when
the API key is absent; with a key configured, every issued request carries
`Authorization: Bearer <key>` — and, in the fixed version, the
`X-PF-Store-Id` header — regardless of which endpoint, options and
response are in play (the per-call options never rebinding those headers,
as at every call site in the module). -/
theorem authenticated_requests (endpoint : String) (opts : RequestOptions)
    (resp : HttpResponse) (storeEnv : Option String) (k : String)
    (hk : k ≠ "")
    (hext : ∀ p ∈ opts.headers, p.1 ≠ ("Authorization") ∧ p.1 ≠ ("X-PF-Store-Id")) :
    (PrintfulOrig.printfulRequest none endpoint opts resp =
        (.error (.thrown ("PRINTFUL_API_KEY not configured")), [])
      ∧ PrintfulFixed.printfulRequest none storeEnv endpoint opts resp =
        (.error (.thrown ("PRINTFUL_API_KEY not configured")), []))
    ∧ (∀ req ∈ (PrintfulOrig.printfulRequest (some k) endpoint opts resp).2,
        lookupLast req.headers ("Authorization") = some (("Bearer ") ++ k))
    ∧ (∀ req ∈ (PrintfulFixed.printfulRequest (some k) storeEnv endpoint opts resp).2,
        lookupLast req.headers ("Authorization") = some (("Bearer ") ++ k)
        ∧ lookupLast req.headers ("X-PF-Store-Id") =
            some (PrintfulFixed.storeIdOf storeEnv)) := by
  have hrev : ∀ p ∈ opts.headers.reverse, p.1 ≠ ("Authorization") ∧ p.1 ≠ ("X-PF-Store-Id") :=
    fun p hp => hext p (List.mem_reverse.mp hp)
  refine ⟨⟨rfl, rfl⟩, ?_, ?_⟩
  · intro req hreq
    simp only [PrintfulOrig.printfulRequest, PrintfulOrig.getHeaders, if_neg hk,
      List.mem_singleton] at hreq
    subst hreq
    simp only [lookupLast, List.reverse_append]
    rw [lookup_append_of_not_mem _ _ _ (fun p hp => (hrev p hp).1)]
    rfl
  · intro req hreq
    simp only [PrintfulFixed.printfulRequest, PrintfulFixed.getHeaders, if_neg hk,
      List.mem_singleton] at hreq
    subst hreq
    constructor
    · simp only [lookupLast, List.reverse_append]
      rw [lookup_append_of_not_mem _ _ _ (fun p hp => (hrev p hp).1)]
      rfl
    · simp only [lookupLast, List.reverse_append]
      rw [lookup_append_of_not_mem _ _ _ (fun p hp => (hrev p hp).2)]
      rfl

/-- Witness for claim C3 at a concrete key, endpoint and response (no extra
headers, as at every call site): the one issued request carries the bearer
header. -/
theorem authenticated_requests_witness :
    lookupLast (⟨PRINTFUL_API_URL ++ ("/products"), ("GET"),
        [(("Authorization"), ("Bearer ") ++ ("K")),
         (("Content-Type"), ("application/json"))] ++ getOpts.headers,
        none⟩ : IssuedRequest).headers ("Authorization") =
      some (("Bearer ") ++ ("K")) := by
  exact (authenticated_requests ("/products") getOpts ⟨200, none⟩ none ("K")
    (by decide) (by simp [getOpts])).2.1
    ⟨PRINTFUL_API_URL ++ ("/products"), ("GET"),
     [(("Authorization"), ("Bearer ") ++ ("K")),
      (("Content-Type"), ("application/json"))] ++ getOpts.headers, none⟩
    (by simp [PrintfulOrig.printfulRequest, PrintfulOrig.getHeaders, getOpts])

end ClaimC3

/-- `getHeaders` of the fixed client with a configured key. -/
theorem fixedGetHeaders_some (k : String) (storeEnv : Option String) (hk : k ≠ "") :
    PrintfulFixed.getHeaders (some k) storeEnv =
      .ok [(("Authorization"), ("Bearer ") ++ k),
           (("Content-Type"), ("application/json")),
           (("X-PF-Store-Id"), PrintfulFixed.storeIdOf storeEnv)] := by
  simp [PrintfulFixed.getHeaders, hk]

/-- The fixed `printfulRequest` with a configured key: one request issued,
result obtained by envelope unwrapping. -/
theorem fixedRequest_eval (k : String) (storeEnv : Option String)
    (endpoint : String) (opts : RequestOptions) (resp : HttpResponse) (hk : k ≠ "") :
    PrintfulFixed.printfulRequest (some k) storeEnv endpoint opts resp =
      (PrintfulFixed.unwrapEnvelope resp,
       [⟨PRINTFUL_API_URL ++ endpoint, opts.method,
         [(("Authorization"), ("Bearer ") ++ k),
          (("Content-Type"), ("application/json")),
          (("X-PF-Store-Id"), PrintfulFixed.storeIdOf storeEnv)] ++ opts.headers,
         opts.body⟩]) := by
  rw [PrintfulFixed.printfulRequest, fixedGetHeaders_some _ _ hk]

/-- Envelope unwrapping of the fixed client on a `code: 200` envelope is
the `result` field. -/
theorem fixedUnwrap_ok (resp : HttpResponse) (fs : List (String × JVal))
    (hb : resp.body = some fs) (hc : lookupField fs ("code") = some (.num 200)) :
    PrintfulFixed.unwrapEnvelope resp = .ok (lookupField fs ("result")) := by
  rw [PrintfulFixed.unwrapEnvelope]
  rw [hb]
  show (if PrintfulFixed.isCode200 (lookupField fs ("code")) then _ else _) = _
  rw [hc]
  rfl

section ClaimC4

/-- Claim C4: mockup generation is asynchronous and polled by task key.
`createMockupTask` POSTs to `/mockup-generator/create-task/<productId>`
and hands back the provider's task envelope — a `task_key` with a `status`
and no `mockups` field — while `getMockupResult` GETs
`/mockup-generator/task?task_key=<key>` and hands back the task's state
(status, and mockups exactly when the provider reports them); the original
client's `createMockup` hits the same asynchronous create-task endpoint. -/
theorem mockup_task_polling (storeEnv : Option String) (k : String) (hk : k ≠ "")
    (productId : Nat) (variantIds : List Nat)
    (files : List PrintfulFixed.MockupFileSpec) (origFiles : List PrintfulOrig.PFile)
    (taskKey : String) (resp1 resp2 : HttpResponse)
    (fs1 fs2 : List (String × JVal)) (tk st : String) (res2 : JVal)
    (hb1 : resp1.body = some fs1)
    (hc1 : lookupField fs1 ("code") = some (.num 200))
    (hr1 : lookupField fs1 ("result") =
      some (.obj [(("task_key"), .str tk), (("status"), .str st)]))
    (hb2 : resp2.body = some fs2)
    (hc2 : lookupField fs2 ("code") = some (.num 200))
    (hr2 : lookupField fs2 ("result") = some res2) :
    ((PrintfulFixed.createMockupTask (some k) storeEnv productId variantIds files
        resp1).2.map (fun r => (r.url, r.method)) =
      [(PRINTFUL_API_URL ++ ("/mockup-generator/create-task/") ++ toString productId,
        ("POST"))])
    ∧ (PrintfulFixed.createMockupTask (some k) storeEnv productId variantIds files
        resp1).1 = .ok (some (.obj [(("task_key"), .str tk), (("status"), .str st)]))
    ∧ lookupField [(("task_key"), .str tk), (("status"), .str st)] ("mockups") = none
    ∧ ((PrintfulFixed.getMockupResult (some k) storeEnv taskKey resp2).2.map
        (fun r => (r.url, r.method)) =
      [(PRINTFUL_API_URL ++ ("/mockup-generator/task?task_key=") ++ taskKey, ("GET"))])
    ∧ (PrintfulFixed.getMockupResult (some k) storeEnv taskKey resp2).1 = .ok (some res2)
    ∧ ((PrintfulOrig.createMockupCall (some k) productId variantIds origFiles
        resp1).2.map (fun r => (r.url, r.method)) =
      [(PRINTFUL_API_URL ++ ("/mockup-generator/create-task/") ++ toString productId,
        ("POST"))]) := by
  refine ⟨?_, ?_, rfl, ?_, ?_, ?_⟩
  · rw [PrintfulFixed.createMockupTask, fixedRequest_eval _ _ _ _ _ hk]
    simp [String.append_assoc]
  · rw [PrintfulFixed.createMockupTask, fixedRequest_eval _ _ _ _ _ hk]
    show PrintfulFixed.unwrapEnvelope resp1 = _
    rw [fixedUnwrap_ok resp1 fs1 hb1 hc1, hr1]
  · rw [PrintfulFixed.getMockupResult, fixedRequest_eval _ _ _ _ _ hk]
    simp [String.append_assoc, getOpts]
  · rw [PrintfulFixed.getMockupResult, fixedRequest_eval _ _ _ _ _ hk]
    show PrintfulFixed.unwrapEnvelope resp2 = _
    rw [fixedUnwrap_ok resp2 fs2 hb2 hc2, hr2]
  · rw [PrintfulOrig.createMockupCall, PrintfulOrig.printfulRequest]
    rw [show PrintfulOrig.getHeaders (some k) =
      .ok [(("Authorization"), ("Bearer ") ++ k), (("Content-Type"), ("application/json"))]
      from by simp [PrintfulOrig.getHeaders, hk]]
    simp [String.append_assoc]

/-- Witness for claim C4 at a concrete task envelope and poll response. -/
theorem mockup_task_polling_witness :
    (PrintfulFixed.createMockupTask (some ("K")) none 71 [101] []
        ⟨200, some [(("code"), .num 200),
                    (("result"), .obj [(("task_key"), .str ("tk1")), (("status"), .str ("pending"))])]⟩).1 =
      .ok (some (.obj [(("task_key"), .str ("tk1")), (("status"), .str ("pending"))])) := by
  exact (mockup_task_polling none ("K") (by decide) 71 [101] [] [] ("tk1")
    ⟨200, some [(("code"), .num 200),
                (("result"), .obj [(("task_key"), .str ("tk1")), (("status"), .str ("pending"))])]⟩
    ⟨200, some [(("code"), .num 200), (("result"), .str ("done"))]⟩
    [(("code"), .num 200),
     (("result"), .obj [(("task_key"), .str ("tk1")), (("status"), .str ("pending"))])]
    [(("code"), .num 200), (("result"), .str ("done"))]
    ("tk1") ("pending") (.str ("done"))
    rfl rfl rfl rfl rfl rfl).2.1

end ClaimC4

section ClaimC5

/-- With a configured key, `getProduct` resolves with the unwrapped
envelope of its response. -/
theorem fixedGetProduct_fst (k : String) (storeEnv : Option String) (i : Nat)
    (resp : HttpResponse) (hk : k ≠ "") :
    (PrintfulFixed.getProduct (some k) storeEnv i resp).1 =
      PrintfulFixed.unwrapEnvelope resp := by
  rw [PrintfulFixed.getProduct, fixedRequest_eval _ _ _ _ _ hk]

/-- With a configured key, `getProduct` issues exactly one GET of
`/products/<id>`. -/
theorem fixedGetProduct_snd (k : String) (storeEnv : Option String) (i : Nat)
    (resp : HttpResponse) (hk : k ≠ "") :
    (PrintfulFixed.getProduct (some k) storeEnv i resp).2.map IssuedRequest.url =
      [PRINTFUL_API_URL ++ ("/products/") ++ toString i] := by
  rw [PrintfulFixed.getProduct, fixedRequest_eval _ _ _ _ _ hk]
  simp [String.append_assoc]

/-- Settling then filtering the popular-product fetches equals a
`filterMap` that drops rejected fetches and `null` results. -/
theorem settled_filter_eq (k : String) (storeEnv : Option String)
    (oracle : Nat → HttpResponse) (hk : k ≠ "") (ids : List Nat) :
    ((ids.map (fun i => PrintfulFixed.getProduct (some k) storeEnv i (oracle i))).map
        (fun c => match c.1 with
          | .error _ => some JVal.null
          | .ok v => v)).filter (fun e => !(PrintfulFixed.isJNull e))
      = ids.filterMap (fun i =>
          match PrintfulFixed.unwrapEnvelope (oracle i) with
          | .error _ => none
          | .ok v => if PrintfulFixed.isJNull v then none else some v) := by
  induction ids with
  | nil => rfl
  | cons i t ih =>
    simp only [List.map_cons, List.filter_cons, List.filterMap_cons]
    rw [fixedGetProduct_fst _ _ _ _ hk]
    rcases h : PrintfulFixed.unwrapEnvelope (oracle i) with e | v
    · simpa [PrintfulFixed.isJNull] using ih
    · rcases hn : PrintfulFixed.isJNull v with _ | _
      · simpa [hn] using congrArg (List.cons v) ih
      · simpa [hn] using ih

/-- The concatenated request trace of the popular-product fetches: one
`/products/<id>` GET per id, in order. -/
theorem popular_trace_eq (k : String) (storeEnv : Option String)
    (oracle : Nat → HttpResponse) (hk : k ≠ "") (ids : List Nat) :
    ((ids.map (fun i => PrintfulFixed.getProduct (some k) storeEnv i (oracle i))).flatMap
        (fun c => c.2)).map IssuedRequest.url
      = ids.map (fun i => PRINTFUL_API_URL ++ ("/products/") ++ toString i) := by
  induction ids with
  | nil => rfl
  | cons i t ih =>
    simp only [List.map_cons, List.flatMap_cons, List.map_append, ih]
    rw [fixedGetProduct_snd _ _ _ _ hk]
    rfl

/-- Claim C5: with a configured key, `getPopularProducts` queries exactly
the first 5 of the 8 popular product ids (71, 380, 19, 1, 195), catches
each individual `getProduct` failure — dropping that product — and returns
exactly the list of successfully fetched, non-null product details,
whatever the per-product outcomes are; no individual failure escapes. -/
theorem getPopularProducts_first_five (storeEnv : Option String) (k : String)
    (oracle : Nat → HttpResponse) (hk : k ≠ "") :
    popularProductIds.length = 8
    ∧ popularProductIds.take 5 = [71, 380, 19, 1, 195]
    ∧ (PrintfulFixed.getPopularProducts (some k) storeEnv oracle).2.map IssuedRequest.url =
        [71, 380, 19, 1, 195].map (fun i => PRINTFUL_API_URL ++ ("/products/") ++ toString i)
    ∧ (PrintfulFixed.getPopularProducts (some k) storeEnv oracle).1 =
        [71, 380, 19, 1, 195].filterMap (fun i =>
          match PrintfulFixed.unwrapEnvelope (oracle i) with
          | .error _ => none
          | .ok v => if PrintfulFixed.isJNull v then none else some v) := by
  have hids : popularProductIds.take 5 = [71, 380, 19, 1, 195] := rfl
  refine ⟨rfl, rfl, ?_, ?_⟩
  · show ((((popularProductIds.take 5).map
        (fun i => PrintfulFixed.getProduct (some k) storeEnv i (oracle i))).flatMap
        (fun c => c.2)).map IssuedRequest.url) = _
    rw [hids, popular_trace_eq _ _ _ hk]
  · show ((((popularProductIds.take 5).map
        (fun i => PrintfulFixed.getProduct (some k) storeEnv i (oracle i))).map
        (fun c => match c.1 with
          | .error _ => some JVal.null
          | .ok v => v)).filter (fun e => !(PrintfulFixed.isJNull e))) = _
    rw [hids, settled_filter_eq _ _ _ hk]

/-- Witness for claim C5 at a constant oracle whose envelopes carry a
product object (all five fetches succeed). -/
theorem getPopularProducts_first_five_witness :
    (PrintfulFixed.getPopularProducts (some ("K")) none
        (fun _ => ⟨200, some [(("code"), .num 200), (("result"), .obj [])]⟩)).1 =
      [71, 380, 19, 1, 195].filterMap (fun i =>
        match PrintfulFixed.unwrapEnvelope
          ((fun _ => (⟨200, some [(("code"), .num 200), (("result"), .obj [])]⟩ : HttpResponse)) i) with
        | .error _ => none
        | .ok v => if PrintfulFixed.isJNull v then none else some v) := by
  exact (getPopularProducts_first_five none ("K")
    (fun _ => ⟨200, some [(("code"), .num 200), (("result"), .obj [])]⟩)
    (by decide)).2.2.2

end ClaimC5

section ClaimC6

/-- Claim C6: `/api/printful` dispatch is driven by the `action` query
parameter.  A GET with a missing or unrecognized action returns the info
payload (success true, status 200); a POST with a missing action returns a
400 error; every successful dispatch rewraps the client function's result
as JSON with success true; and every error thrown by the client is
rewrapped as `{success: false, error: message}` with status 500. -/
theorem printful_route_dispatch (query : List (String × String))
    (client : PrintfulRoute.RouteClient) (body : JVal) :
    (query.lookup ("action") = none →
      PrintfulRoute.GET query client = ⟨200, PrintfulRoute.infoPayload⟩)
    ∧ (∀ a, query.lookup ("action") = some a →
        a ∉ [("catalog"), ("product"), ("popular"), ("pricing"), ("store"),
             ("mockup-status")] →
        PrintfulRoute.GET query client = ⟨200, PrintfulRoute.infoPayload⟩)
    ∧ PrintfulRoute.bodyField PrintfulRoute.infoPayload ("success") = some (.bool true)
    ∧ (query.lookup ("action") = none →
        PrintfulRoute.POST query body client =
          PrintfulRoute.errorResponse
            ("Action parameter required. Use: shipping, estimate, mockup") 400)
    ∧ (∀ xs, query.lookup ("action") = some ("catalog") →
        client.getCatalog (PrintfulRoute.parseIntJS
          (PrintfulRoute.jsOrStr (query.lookup ("limit")) ("20"))) = .ok xs →
        PrintfulRoute.GET query client =
          ⟨200, .obj [(("success"), .bool true), (("products"), .arr xs),
                      (("count"), .num xs.length)]⟩)
    ∧ (∀ m, query.lookup ("action") = some ("catalog") →
        client.getCatalog (PrintfulRoute.parseIntJS
          (PrintfulRoute.jsOrStr (query.lookup ("limit")) ("20"))) = .error m →
        PrintfulRoute.GET query client = PrintfulRoute.errorResponse m 500)
    ∧ (∀ s v, query.lookup ("action") = some ("product") →
        query.lookup ("id") = some s → s ≠ "" →
        client.getProduct (PrintfulRoute.parseIntJS s) = .ok v →
        PrintfulRoute.GET query client =
          ⟨200, .obj [(("success"), .bool true), (("product"), v)]⟩)
    ∧ (∀ s m, query.lookup ("action") = some ("product") →
        query.lookup ("id") = some s → s ≠ "" →
        client.getProduct (PrintfulRoute.parseIntJS s) = .error m →
        PrintfulRoute.GET query client = PrintfulRoute.errorResponse m 500)
    ∧ (∀ xs, query.lookup ("action") = some ("popular") →
        client.getPopularProducts () = .ok xs →
        PrintfulRoute.GET query client =
          ⟨200, .obj [(("success"), .bool true), (("products"), .arr xs),
                      (("count"), .num xs.length)]⟩)
    ∧ (∀ m, query.lookup ("action") = some ("popular") →
        client.getPopularProducts () = .error m →
        PrintfulRoute.GET query client = PrintfulRoute.errorResponse m 500)
    ∧ (∀ s v, query.lookup ("action") = some ("pricing") →
        query.lookup ("id") = some s → s ≠ "" →
        client.getProductPricing (PrintfulRoute.parseIntJS s) = .ok v →
        PrintfulRoute.GET query client =
          ⟨200, .obj [(("success"), .bool true), (("pricing"), v)]⟩)
    ∧ (∀ s m, query.lookup ("action") = some ("pricing") →
        query.lookup ("id") = some s → s ≠ "" →
        client.getProductPricing (PrintfulRoute.parseIntJS s) = .error m →
        PrintfulRoute.GET query client = PrintfulRoute.errorResponse m 500)
    ∧ (∀ v, query.lookup ("action") = some ("store") →
        client.getStoreInfo () = .ok v →
        PrintfulRoute.GET query client =
          ⟨200, .obj [(("success"), .bool true), (("store"), v)]⟩)
    ∧ (∀ m, query.lookup ("action") = some ("store") →
        client.getStoreInfo () = .error m →
        PrintfulRoute.GET query client = PrintfulRoute.errorResponse m 500)
    ∧ (∀ s v, query.lookup ("action") = some ("mockup-status") →
        query.lookup ("task_key") = some s → s ≠ "" →
        client.getMockupResult s = .ok v →
        PrintfulRoute.GET query client =
          ⟨200, .obj [(("success"), .bool true), (("result"), v)]⟩)
    ∧ (∀ s m, query.lookup ("action") = some ("mockup-status") →
        query.lookup ("task_key") = some s → s ≠ "" →
        client.getMockupResult s = .error m →
        PrintfulRoute.GET query client = PrintfulRoute.errorResponse m 500)
    ∧ (∀ r it xs, query.lookup ("action") = some ("shipping") →
        PrintfulRoute.bodyField body ("recipient") = some r → jsTruthy r = true →
        PrintfulRoute.bodyField body ("items") = some it → jsTruthy it = true →
        client.getShippingRates (some r) (some it) = .ok xs →
        PrintfulRoute.POST query body client =
          ⟨200, .obj [(("success"), .bool true), (("rates"), .arr xs),
                      (("count"), .num xs.length)]⟩)
    ∧ (∀ r it m, query.lookup ("action") = some ("shipping") →
        PrintfulRoute.bodyField body ("recipient") = some r → jsTruthy r = true →
        PrintfulRoute.bodyField body ("items") = some it → jsTruthy it = true →
        client.getShippingRates (some r) (some it) = .error m →
        PrintfulRoute.POST query body client = PrintfulRoute.errorResponse m 500)
    ∧ (∀ r it v, query.lookup ("action") = some ("estimate") →
        PrintfulRoute.bodyField body ("recipient") = some r → jsTruthy r = true →
        PrintfulRoute.bodyField body ("items") = some it → jsTruthy it = true →
        client.estimateCosts (some r) (some it) = .ok v →
        PrintfulRoute.POST query body client =
          ⟨200, .obj [(("success"), .bool true), (("estimate"), v)]⟩)
    ∧ (∀ r it m, query.lookup ("action") = some ("estimate") →
        PrintfulRoute.bodyField body ("recipient") = some r → jsTruthy r = true →
        PrintfulRoute.bodyField body ("items") = some it → jsTruthy it = true →
        client.estimateCosts (some r) (some it) = .error m →
        PrintfulRoute.POST query body client = PrintfulRoute.errorResponse m 500)
    ∧ (∀ p vi fl v, query.lookup ("action") = some ("mockup") →
        PrintfulRoute.bodyField body ("productId") = some p → jsTruthy p = true →
        PrintfulRoute.bodyField body ("variantIds") = some vi → jsTruthy vi = true →
        PrintfulRoute.bodyField body ("files") = some fl → jsTruthy fl = true →
        client.createMockupTask (some p) (some vi) (some fl) = .ok v →
        PrintfulRoute.POST query body client =
          ⟨200, .obj [(("success"), .bool true), (("task"), v)]⟩)
    ∧ (∀ p vi fl m, query.lookup ("action") = some ("mockup") →
        PrintfulRoute.bodyField body ("productId") = some p → jsTruthy p = true →
        PrintfulRoute.bodyField body ("variantIds") = some vi → jsTruthy vi = true →
        PrintfulRoute.bodyField body ("files") = some fl → jsTruthy fl = true →
        client.createMockupTask (some p) (some vi) (some fl) = .error m →
        PrintfulRoute.POST query body client = PrintfulRoute.errorResponse m 500) := by
  refine ⟨?_, ?_, rfl, ?_, ?_, ?_, ?_, ?_, ?_, ?_, ?_, ?_, ?_, ?_, ?_, ?_, ?_, ?_, ?_, ?_,
    ?_, ?_⟩
  · intro ha
    simp [PrintfulRoute.GET, ha, PrintfulRoute.jsOrStr]
  · intro a ha hnot
    by_cases he : a = ""
    · subst he
      simp [PrintfulRoute.GET, ha, PrintfulRoute.jsOrStr]
    · have h1 : a ≠ ("catalog") := fun e => hnot (by simp [e])
      have h2 : a ≠ ("product") := fun e => hnot (by simp [e])
      have h3 : a ≠ ("popular") := fun e => hnot (by simp [e])
      have h4 : a ≠ ("pricing") := fun e => hnot (by simp [e])
      have h5 : a ≠ ("store") := fun e => hnot (by simp [e])
      have h6 : a ≠ ("mockup-status") := fun e => hnot (by simp [e])
      rw [PrintfulRoute.GET, ha]
      show (if (PrintfulRoute.jsOrStr (some a) ("info")) = ("catalog") then _ else _) = _
      rw [PrintfulRoute.jsOrStr, if_neg he, if_neg h1, if_neg h2, if_neg h3, if_neg h4,
        if_neg h5, if_neg h6]
  · intro ha
    simp [PrintfulRoute.POST, ha]
  · intro xs ha hc
    simp only [PrintfulRoute.jsOrStr] at hc
    simp [PrintfulRoute.GET, ha, PrintfulRoute.jsOrStr, hc]
  · intro m ha hc
    simp only [PrintfulRoute.jsOrStr] at hc
    simp [PrintfulRoute.GET, ha, PrintfulRoute.jsOrStr, hc]
  · intro s v ha hid hs hv
    simp [PrintfulRoute.GET, ha, PrintfulRoute.jsOrStr, hid, PrintfulRoute.strFalsy, hs, hv]
  · intro s m ha hid hs hv
    simp [PrintfulRoute.GET, ha, PrintfulRoute.jsOrStr, hid, PrintfulRoute.strFalsy, hs, hv]
  · intro xs ha hc
    simp [PrintfulRoute.GET, ha, PrintfulRoute.jsOrStr, hc]
  · intro m ha hc
    simp [PrintfulRoute.GET, ha, PrintfulRoute.jsOrStr, hc]
  · intro s v ha hid hs hv
    simp [PrintfulRoute.GET, ha, PrintfulRoute.jsOrStr, hid, PrintfulRoute.strFalsy, hs, hv]
  · intro s m ha hid hs hv
    simp [PrintfulRoute.GET, ha, PrintfulRoute.jsOrStr, hid, PrintfulRoute.strFalsy, hs, hv]
  · intro v ha hc
    simp [PrintfulRoute.GET, ha, PrintfulRoute.jsOrStr, hc]
  · intro m ha hc
    simp [PrintfulRoute.GET, ha, PrintfulRoute.jsOrStr, hc]
  · intro s v ha hid hs hv
    simp [PrintfulRoute.GET, ha, PrintfulRoute.jsOrStr, hid, PrintfulRoute.strFalsy, hs, hv]
  · intro s m ha hid hs hv
    simp [PrintfulRoute.GET, ha, PrintfulRoute.jsOrStr, hid, PrintfulRoute.strFalsy, hs, hv]
  · intro r it xs ha hr htr hit htit hc
    simp [PrintfulRoute.POST, ha, hr, htr, hit, htit, jsTruthyOpt, hc]
  · intro r it m ha hr htr hit htit hc
    simp [PrintfulRoute.POST, ha, hr, htr, hit, htit, jsTruthyOpt, hc]
  · intro r it v ha hr htr hit htit hc
    simp [PrintfulRoute.POST, ha, hr, htr, hit, htit, jsTruthyOpt, hc]
  · intro r it m ha hr htr hit htit hc
    simp [PrintfulRoute.POST, ha, hr, htr, hit, htit, jsTruthyOpt, hc]
  · intro p vi fl v ha hp htp hvi htvi hfl htfl hc
    simp [PrintfulRoute.POST, ha, hp, htp, hvi, htvi, hfl, htfl, jsTruthyOpt, hc]
  · intro p vi fl m ha hp htp hvi htvi hfl htfl hc
    simp [PrintfulRoute.POST, ha, hp, htp, hvi, htvi, hfl, htfl, jsTruthyOpt, hc]

/-- Witness for claim C6: a GET with no action at all returns the info
payload. -/
theorem printful_route_dispatch_witness :
    PrintfulRoute.GET []
      ⟨fun _ => .error (""), fun _ => .error (""), fun _ => .error (""),
       fun _ => .error (""), fun _ => .error (""), fun _ => .error (""),
       fun _ _ => .error (""), fun _ _ => .error (""), fun _ _ _ => .error ("")⟩ =
      ⟨200, PrintfulRoute.infoPayload⟩ := by
  exact (printful_route_dispatch []
    ⟨fun _ => .error (""), fun _ => .error (""), fun _ => .error (""),
     fun _ => .error (""), fun _ => .error (""), fun _ => .error (""),
     fun _ _ => .error (""), fun _ _ => .error (""), fun _ _ _ => .error ("")⟩
    .null).1 rfl

end ClaimC6

section ClaimC7

/-- Claim C7: in every state of `PrintfulBrowser`, at most one of the three
views (catalog / product / estimate) is rendered; the loading display takes
precedence over everything, the error display over the three views; the
product view renders only with a selected product, and the estimate view
only with both a selected product and a selected variant. -/
theorem browser_render_exclusive (s : Browser.BrowserState) :
    (Browser.viewsShown (Browser.render s)).length ≤ 1
    ∧ (s.loading = true → Browser.render s = .loadingView)
    ∧ (s.loading = false → Browser.errTruthy s.error = true →
        Browser.render s = .errorView ((s.error).getD ""))
    ∧ (s.loading = true ∨ Browser.errTruthy s.error = true →
        Browser.viewsShown (Browser.render s) = [])
    ∧ (Browser.render s = .productView → s.selectedProduct.isSome = true)
    ∧ (Browser.render s = .estimateView →
        s.selectedProduct.isSome = true ∧ s.selectedVariant.isSome = true) := by
  refine ⟨?_, ?_, ?_, ?_, ?_, ?_⟩
  · rcases h : Browser.render s <;> simp [Browser.viewsShown]
  · intro hl
    simp [Browser.render, hl]
  · intro hl he
    simp [Browser.render, hl, he]
  · rintro (hl | he)
    · simp [Browser.render, hl, Browser.viewsShown]
    · rcases hl : s.loading with _ | _
      · simp [Browser.render, hl, he, Browser.viewsShown]
      · simp [Browser.render, hl, Browser.viewsShown]
  · intro h
    rcases hl : s.loading with _ | _
    · rcases he : Browser.errTruthy s.error with _ | _
      · rcases hv : s.view with _ | _ | _ <;>
          rcases hp : s.selectedProduct with _ | p <;>
          rcases hq : s.selectedVariant with _ | q <;>
          simp [Browser.render, hl, he, hv, hp, hq] at h <;> simp [hp]
      · simp [Browser.render, hl, he] at h
    · simp [Browser.render, hl] at h
  · intro h
    rcases hl : s.loading with _ | _
    · rcases he : Browser.errTruthy s.error with _ | _
      · rcases hv : s.view with _ | _ | _ <;>
          rcases hp : s.selectedProduct with _ | p <;>
          rcases hq : s.selectedVariant with _ | q <;>
          simp [Browser.render, hl, he, hv, hp, hq] at h <;> simp [hp, hq]
      · simp [Browser.render, hl, he] at h
    · simp [Browser.render, hl] at h

/-- Witness for claim C7: a loading state renders the spinner. -/
theorem browser_render_exclusive_witness :
    Browser.render ⟨[], none, none, [], true, none, .catalog⟩ = .loadingView := by
  exact (browser_render_exclusive ⟨[], none, none, [], true, none, .catalog⟩).2.1 rfl

end ClaimC7

section ClaimC8

namespace Download

/-- Keeping a segment during normalization: neither empty nor `.`. -/
def goodSeg (s : List Char) : Bool :=
  if s = [] ∨ s = ['.'] then false else true

/-- Prepending a character preserves an adjacent-dots occurrence. -/
theorem hasDD_cons (c : Char) (l : List Char) (h : hasDD l = true) :
    hasDD (c :: l) = true := by
  cases l with
  | nil => simp [hasDD] at h
  | cons b r => simp only [hasDD, h, Bool.or_true]

/-- Prepending any prefix preserves an adjacent-dots occurrence. -/
theorem hasDD_append (xs l : List Char) (h : hasDD l = true) :
    hasDD (xs ++ l) = true := by
  induction xs with
  | nil => exact h
  | cons c t ih => exact hasDD_cons c (t ++ l) ih

/-- `splitSlash` never returns an empty segment list. -/
theorem splitSlash_ne_nil (cs : List Char) : splitSlash cs ≠ [] := by
  induction cs with
  | nil => simp [splitSlash]
  | cons c t ih =>
    simp only [splitSlash]
    by_cases hc : c = '/'
    · simp [hc]
    · simp only [if_neg hc]
      rcases h : splitSlash t with _ | ⟨s, rest⟩
      · simp
      · simp

/-- The head segment of `splitSlash` is a prefix of the input. -/
theorem splitSlash_head_prefix (cs : List Char) (s : List Char) (rest : List (List Char))
    (h : splitSlash cs = s :: rest) : s <+: cs := by
  induction cs generalizing s rest with
  | nil =>
    simp [splitSlash] at h
    simp [h.1]
  | cons c t ih =>
    simp only [splitSlash] at h
    by_cases hc : c = '/'
    · rw [if_pos hc] at h
      obtain ⟨h1, _⟩ := List.cons.inj h
      simp [← h1]
    · rw [if_neg hc] at h
      rcases h0 : splitSlash t with _ | ⟨s0, r0⟩
      · exact absurd h0 (splitSlash_ne_nil t)
      · rw [h0] at h
        obtain ⟨h1, _⟩ := List.cons.inj h
        rw [← h1]
        obtain ⟨u, hu⟩ := ih s0 r0 h0
        exact ⟨u, by simp [hu]⟩

/-- A `..` segment of the split means the string had two adjacent dots. -/
theorem mem_splitSlash_dd (s : List Char) (cs : List Char)
    (hmem : s ∈ splitSlash cs) (hdots : s = ['.', '.']) : hasDD cs = true := by
  induction cs generalizing s with
  | nil =>
    simp [splitSlash] at hmem
    rw [hmem] at hdots
    exact absurd hdots (by simp)
  | cons c t ih =>
    simp only [splitSlash] at hmem
    by_cases hc : c = '/'
    · rw [if_pos hc] at hmem
      rcases List.mem_cons.mp hmem with h0 | h0
      · rw [h0] at hdots
        exact absurd hdots (by simp)
      · exact hasDD_cons c t (ih s h0 hdots)
    · rw [if_neg hc] at hmem
      rcases h0 : splitSlash t with _ | ⟨s0, r0⟩
      · exact absurd h0 (splitSlash_ne_nil t)
      · rw [h0] at hmem
        rcases List.mem_cons.mp hmem with h1 | h1
        · subst hdots
          have h1s : c :: s0 = ['.', '.'] := h1.symm
          obtain ⟨hc1, hs0⟩ := List.cons.inj h1s
          have hpre : s0 <+: t := splitSlash_head_prefix t s0 r0 h0
          rw [hs0] at hpre
          rcases t with _ | ⟨d, t2⟩
          · obtain ⟨u, hu⟩ := hpre
            simp at hu
          · obtain ⟨u, hu⟩ := hpre
            obtain ⟨hd, _⟩ := List.cons.inj hu
            subst hc1
            rw [← hd]
            simp [hasDD]
        · have hmem2 : s ∈ splitSlash t := by
            rw [h0]
            exact List.mem_cons_of_mem s0 h1
          exact hasDD_cons c t (ih s hmem2 hdots)

/-- Splitting distributes over a slash-separated concatenation. -/
theorem splitSlash_append (xs ys : List Char) :
    splitSlash (xs ++ '/' :: ys) = splitSlash xs ++ splitSlash ys := by
  induction xs with
  | nil => simp [splitSlash]
  | cons c t ih =>
    by_cases hc : c = '/'
    · simp only [List.cons_append, splitSlash, if_pos hc, List.append_eq]
      rw [ih]
    · simp only [List.cons_append, splitSlash, if_neg hc, List.append_eq]
      rcases h0 : splitSlash t with _ | ⟨s0, r0⟩
      · exact absurd h0 (splitSlash_ne_nil t)
      · rw [show splitSlash (t ++ '/' :: ys) = s0 :: (r0 ++ splitSlash ys) from by
          rw [ih, h0]; rfl]
        rfl

/-- Folding `normStep` over segments free of `..` pushes exactly the kept
segments, never popping into the initial stack. -/
theorem foldl_normStep_no_dd (flag : Bool) (segs : List (List Char))
    (h : ∀ s ∈ segs, s ≠ ['.', '.']) (stack : List (List Char)) :
    segs.foldl (normStep flag) stack = (segs.filter goodSeg).reverse ++ stack := by
  induction segs generalizing stack with
  | nil => rfl
  | cons s t ih =>
    have hs : s ≠ ['.', '.'] := h s (by simp)
    have ht : ∀ u ∈ t, u ≠ ['.', '.'] := fun u hu => h u (by simp [hu])
    by_cases hg : s = [] ∨ s = ['.']
    · have hstep : normStep flag stack s = stack := by
        simp [normStep, hg]
      have hfil : goodSeg s = false := by
        simp [goodSeg, hg]
      simp only [List.foldl_cons, hstep, List.filter_cons, hfil]
      exact ih ht stack
    · have hstep : normStep flag stack s = s :: stack := by
        simp only [normStep, if_neg hg, if_neg hs]
      have hfil : goodSeg s = true := by
        simp [goodSeg, hg]
      simp only [List.foldl_cons, hstep, List.filter_cons, hfil]
      rw [ih ht (s :: stack)]
      simp

/-- The absolute-path flag only looks at the first characters. -/
theorem isAbsChars_append (xs ys : List Char) (h : xs ≠ []) :
    isAbsChars (xs ++ ys) = isAbsChars xs := by
  cases xs with
  | nil => exact absurd rfl h
  | cons c t => rfl

/-- Appending a slash-separated relative path free of `..` only extends
the canonical segments: the base's canonical segments stay a prefix. -/
theorem normSegsChars_prefix (base n : List Char) (hb : base ≠ [])
    (hdd : hasDD n = false) :
    normSegsChars base <+: normSegsChars (base ++ '/' :: n) := by
  have hnd : ∀ s ∈ splitSlash n, s ≠ ['.', '.'] := by
    intro s hs e
    rw [mem_splitSlash_dd s n hs e] at hdd
    exact absurd hdd (by simp)
  rw [normSegsChars, normSegsChars, splitSlash_append, isAbsChars_append _ _ hb,
    List.foldl_append, foldl_normStep_no_dd _ _ hnd, List.reverse_append,
    List.reverse_reverse]
  exact List.prefix_append _ _

end Download

end ClaimC8

/-- String append acts as list append on the character data. -/
theorem str_data_append (a b : String) : (a ++ b).data = a.data ++ b.data := by
  cases a
  cases b
  rfl

/-- Splitting the resolved download path at the storage segment. -/
theorem storage_concat_data (cwd n : String) :
    (cwd ++ ("/storage/") ++ n).data = (cwd ++ ("/storage")).data ++ '/' :: n.data := by
  rw [str_data_append, str_data_append, str_data_append]
  rw [show ("/storage/" : String).data = ("/storage" : String).data ++ ['/'] from rfl]
  simp

/-- Claim C8: when the stored `file_path`, once normalized, contains `..`
or is absolute, the download handler answers 400 and touches the
filesystem nowhere; and every path it does touch is the normalization of
`<cwd>/storage/<normalized file_path>` whose canonical segments extend
those of `<cwd>/storage` — the served file stays under the storage
directory. -/
theorem download_guard_and_containment (cwd fp : String)
    (fs : String → Option Download.FsFile) (_hcwd : cwd ≠ "") :
    (Download.containsDD (Download.normalizeStr fp) = true
       ∨ Download.isAbsolutePosix (Download.normalizeStr fp) = true →
      Download.downloadServe cwd fp fs = (.invalidPath 400, []))
    ∧ (∀ op ∈ (Download.downloadServe cwd fp fs).2,
        op.path = Download.joinTriple cwd ("storage") (Download.normalizeStr fp)
        ∧ Download.normSegsOf (cwd ++ ("/storage"))
            <+: Download.normSegsOf (cwd ++ ("/storage/") ++ Download.normalizeStr fp)) := by
  constructor
  · rintro (h | h)
    · simp [Download.downloadServe, h]
    · simp [Download.downloadServe, h]
  · intro op hop
    by_cases hdd : Download.containsDD (Download.normalizeStr fp) = true
    · simp [Download.downloadServe, hdd] at hop
    · by_cases habs : Download.isAbsolutePosix (Download.normalizeStr fp) = true
      · simp [Download.downloadServe, habs] at hop
      · have hdd2 : Download.containsDD (Download.normalizeStr fp) = false :=
          Bool.eq_false_iff.mpr hdd
        have habs2 : Download.isAbsolutePosix (Download.normalizeStr fp) = false :=
          Bool.eq_false_iff.mpr habs
        have hpre : Download.normSegsOf (cwd ++ ("/storage"))
            <+: Download.normSegsOf (cwd ++ ("/storage/") ++ Download.normalizeStr fp) := by
          rw [Download.normSegsOf, Download.normSegsOf, storage_concat_data]
          apply Download.normSegsChars_prefix
          · rw [str_data_append]
            simp
          · exact hdd2
        simp only [Download.downloadServe, hdd2, habs2, Bool.or_self, Bool.false_eq_true,
          if_false] at hop
        rcases hf : fs (Download.joinTriple cwd ("storage") (Download.normalizeStr fp))
          with _ | f
        · rw [hf] at hop
          simp at hop
          rw [hop]
          exact ⟨rfl, hpre⟩
        · rw [hf] at hop
          by_cases hsz : f.size > Download.MAX_FILE_SIZE
          · simp only [hsz, if_true] at hop
            simp at hop
            rw [hop]
            exact ⟨rfl, hpre⟩
          · simp only [hsz, if_false] at hop
            simp at hop
            rcases hop with h | h
            · rw [h]
              exact ⟨rfl, hpre⟩
            · rw [h]
              exact ⟨rfl, hpre⟩

/-- Witness for claim C8: a traversal path `../x` is rejected with 400 and
no filesystem operation. -/
theorem download_guard_and_containment_witness :
    Download.downloadServe ("/app") ("../x") (fun _ => none) = (.invalidPath 400, []) := by
  exact (download_guard_and_containment ("/app") ("../x") (fun _ => none)
    (by decide)).1 (Or.inl (by decide))

section ClaimC9

/-- Claim C9: for a download resolving to an existing file strictly larger
than 50 MiB (52428800 bytes), the handler answers 413 after the `stat` and
never reads the file's contents. -/
theorem download_size_limit (cwd fp : String) (fs : String → Option Download.FsFile)
    (f : Download.FsFile)
    (hdd : Download.containsDD (Download.normalizeStr fp) = false)
    (habs : Download.isAbsolutePosix (Download.normalizeStr fp) = false)
    (hf : fs (Download.joinTriple cwd ("storage") (Download.normalizeStr fp)) = some f)
    (hsize : f.size > 52428800) :
    Download.MAX_FILE_SIZE = 52428800
    ∧ Download.downloadServe cwd fp fs =
        (.tooLarge 413,
         [.statOp (Download.joinTriple cwd ("storage") (Download.normalizeStr fp))])
    ∧ (∀ p, Download.FsOp.readOp p ∉ (Download.downloadServe cwd fp fs).2) := by
  have hserve : Download.downloadServe cwd fp fs =
      (.tooLarge 413,
       [.statOp (Download.joinTriple cwd ("storage") (Download.normalizeStr fp))]) := by
    have hbig : f.size > Download.MAX_FILE_SIZE := hsize
    simp only [Download.downloadServe, hdd, habs, Bool.or_self, Bool.false_eq_true,
      if_false, hf, hbig, if_true]
  refine ⟨rfl, hserve, ?_⟩
  intro p hp
  rw [hserve] at hp
  simp at hp

/-- Witness for claim C9: a 52428801-byte file is refused with 413 and
only a `stat` is performed. -/
theorem download_size_limit_witness :
    Download.downloadServe ("/app") ("f.pdf") (fun _ => some ⟨52428801, ("")⟩) =
      (.tooLarge 413,
       [.statOp (Download.joinTriple ("/app") ("storage") (Download.normalizeStr ("f.pdf")))]) := by
  exact (download_size_limit ("/app") ("f.pdf") (fun _ => some ⟨52428801, ("")⟩)
    ⟨52428801, ("")⟩ (by decide) (by decide) rfl (by decide)).2.1

end ClaimC9

section ClaimC10

/-- Claim C10: the fixed `getStoreInfo` GETs `/stores` and returns the
first element of the returned store list; on an empty list it resolves
with `undefined` rather than failing. -/
theorem getStoreInfo_first_store (storeEnv : Option String) (k : String) (hk : k ≠ "")
    (resp : HttpResponse) (fs : List (String × JVal)) (stores : List JVal)
    (hb : resp.body = some fs)
    (hc : lookupField fs ("code") = some (.num 200))
    (hr : lookupField fs ("result") = some (.arr stores)) :
    (PrintfulFixed.getStoreInfo (some k) storeEnv resp).1 = .ok stores.head?
    ∧ (stores = [] → (PrintfulFixed.getStoreInfo (some k) storeEnv resp).1 = .ok none)
    ∧ (PrintfulFixed.getStoreInfo (some k) storeEnv resp).2.map IssuedRequest.url =
        [PRINTFUL_API_URL ++ ("/stores")] := by
  have hcore1 : (PrintfulFixed.getStoreInfo (some k) storeEnv resp).1 =
      PrintfulFixed.jsIndexZero (some (.arr stores)) := by
    simp only [PrintfulFixed.getStoreInfo, fixedRequest_eval _ _ _ _ _ hk,
      fixedUnwrap_ok resp fs hb hc, hr]
  have hcore2 : (PrintfulFixed.getStoreInfo (some k) storeEnv resp).2.map IssuedRequest.url =
      [PRINTFUL_API_URL ++ ("/stores")] := by
    simp only [PrintfulFixed.getStoreInfo, fixedRequest_eval _ _ _ _ _ hk]
    rfl
  refine ⟨?_, ?_, hcore2⟩
  · rw [hcore1]
    cases stores with
    | nil => rfl
    | cons x t => rfl
  · intro he
    rw [hcore1, he]
    rfl

/-- Witness for claim C10: an empty store list yields `undefined`
(`Option.none`), not an error. -/
theorem getStoreInfo_first_store_witness :
    (PrintfulFixed.getStoreInfo (some ("K")) none
        ⟨200, some [(("code"), .num 200), (("result"), .arr [])]⟩).1 = .ok none := by
  exact (getStoreInfo_first_store none ("K") (by decide)
    ⟨200, some [(("code"), .num 200), (("result"), .arr [])]⟩
    [(("code"), .num 200), (("result"), .arr [])] [] rfl rfl rfl).2.1 rfl

end ClaimC10
